import Mathlib

/-!
Verification of the spec-kit scaffolding installer and its companion verifier.

This file is a shallow embedding, in Lean 4, of the Python modules
`spec_kit/utils/file_ops.py`, `spec_kit/core/validator.py`,
`spec_kit/core/installer.py` and `spec_kit/commands/init.py`.

Conventions of the embedding:
  * A file tree is a finite association list from relative paths
    (`List String` of path components) to nodes (file-with-content or
    directory).  The empty path `[]` denotes the root itself.
  * Stateful Python methods become state-passing Lean functions; the mutable
    counters of the validator become an explicit `VState` value.
  * Python exceptions become an explicit `PyExc` value; a raised exception is
    an `Except.error` / `Option.some` result.
  * Filesystem writes of the installer are recorded as an explicit trace of
    `WriteOp` values, in the order the source performs them; an empty trace
    means the target tree is untouched.
  * Python string primitives (`strip`, `lower`, `split`, `in`, `endswith`,
    `startswith`, `int()`) are modelled by executable functions over the
    character list of a `String`, because the built-in `String` functions do
    not reduce inside the kernel.
-/

namespace SpecKit

/-! ## Model of the Python string primitives -/

/-- Model of Python `str.lower()` (ASCII case folding suffices here). -/
def pyLower (s : String) : String := ⟨s.data.map Char.toLower⟩

/-- Model of Python `str.strip()`: drop leading and trailing whitespace. -/
def pyStrip (s : String) : String :=
  ⟨((s.data.dropWhile Char.isWhitespace).reverse.dropWhile Char.isWhitespace).reverse⟩

/-- Model of Python `str.endswith(suf)`. -/
def pyEndsWith (s suf : String) : Bool := suf.data.isSuffixOf s.data

/-- Model of Python `str.startswith(pre)`. -/
def pyStartsWith (s pre : String) : Bool := pre.data.isPrefixOf s.data

/-- Decidable substring test over character lists, used to model the Python
substring operator `sub in s`. -/
def listContainsSub (sub : List Char) : List Char → Bool
  | [] => sub.isEmpty
  | c :: rest => sub.isPrefixOf (c :: rest) || listContainsSub sub rest

/-- Model of the Python substring operator `sub in s`. -/
def pyContains (s sub : String) : Bool := listContainsSub sub.data s.data

/-- Split a character list at every occurrence of a separator character. -/
def splitOnCharAux (sep : Char) : List Char → List Char → List (List Char)
  | [], acc => [acc.reverse]
  | x :: rest, acc =>
    if x == sep then acc.reverse :: splitOnCharAux sep rest []
    else splitOnCharAux sep rest (x :: acc)

/-- Model of Python `s.split(',')`. -/
def pySplitComma (s : String) : List String :=
  (splitOnCharAux (Char.ofNat 44) s.data []).map (fun l => ⟨l⟩)

/-- Model of Python `s.split()` (split on whitespace runs, no empty pieces). -/
def pySplitWs (s : String) : List String :=
  ((s.data.splitOnP Char.isWhitespace).map (fun l => (⟨l⟩ : String))).filter
    (fun piece => piece ≠ "")

/-- Parse an optionally signed decimal numeral, modelling Python `int(x)`
on the inputs that occur here; `none` models a raised `ValueError`. -/
def pyToIntOpt (s : String) : Option Int :=
  match s.data with
  | [] => none
  | c :: rest =>
    if c == Char.ofNat 45 then
      if rest ≠ [] ∧ rest.all Char.isDigit then
        some (-(Int.ofNat (digitsToNat rest 0)))
      else none
    else
      if (c :: rest).all Char.isDigit then some (Int.ofNat (digitsToNat (c :: rest) 0))
      else none
where
  digitsToNat : List Char → Nat → Nat
    | [], acc => acc
    | d :: ds, acc => digitsToNat ds (acc * 10 + (d.toNat - 48))

/-! ## Embedding of `spec_kit/utils/file_ops.py` (gitignore handling) -/

/-- Source `get_gitignore_entries` from `file_ops.py`: the three lines the
installer appends to the target ignore file. -/
def get_gitignore_entries : List String :=
  ["",
   "# Spec-Kit templates (optional, for reference)",
   ".spec-kit-templates/"]

/-- Text appended by `update_gitignore`: every entry followed by a newline,
as written by the `f.write(entry + '\n')` loop of the source. -/
def gitignoreAppendText (entries : List String) : String :=
  String.join (entries.map (fun e => e ++ "\n"))

/-- Source `update_gitignore` from `file_ops.py`.  The first argument is the
current content of the `.gitignore` file (`none` when the file does not
exist).  The result is the content after the call together with the `bool`
the source returns (`true` when the file was modified). -/
def update_gitignore (existing : Option String) (entries : List String) :
    Option String × Bool :=
  let existing_content := existing.getD ""
  if pyContains existing_content ".spec-kit-templates/" then
    (existing, false)
  else
    (some (existing_content ++ gitignoreAppendText entries), true)

/-! ## Model of the target file tree -/

/-- A node of the tree: a regular file with its text content, or a directory. -/
inductive Node
  | file (content : String)
  | dir
deriving DecidableEq, Repr

/-- A relative path, as its list of components; `[]` is the root. -/
abbrev FPath := List String

/-- A file tree: a finite association list from paths to nodes. -/
structure FS where
  nodes : List (FPath × Node)
deriving DecidableEq, Repr

/-- First node registered at a path, if any (models `Path.exists` etc.). -/
def FS.find (fs : FS) (p : FPath) : Option Node :=
  (fs.nodes.find? (fun e => e.1 == p)).map (fun e => e.2)

/-- Models Python `path.exists()`. -/
def FS.pathExists (fs : FS) (p : FPath) : Bool := (fs.find p).isSome

/-- Models Python `path.exists() and path.is_file()`. -/
def FS.isFileAt (fs : FS) (p : FPath) : Bool :=
  match fs.find p with
  | some (Node.file _) => true
  | _ => false

/-- Models Python `path.exists() and path.is_dir()`. -/
def FS.isDirAt (fs : FS) (p : FPath) : Bool := fs.find p == some Node.dir

/-- Names of the immediate children of a path, in registration order
(models `path.iterdir()`; in the source `iterdir` would raise on a
non-directory, so the model is only used on directory-or-absent paths). -/
def FS.childNames (fs : FS) (p : FPath) : List String :=
  fs.nodes.filterMap (fun e =>
    if e.1.length == p.length + 1 && p.isPrefixOf e.1 then e.1.getLast? else none)

/-- Render a relative path the way Python `str(Path(...))` does. -/
def pathStr (p : FPath) : String := String.intercalate "/" p

/-! ## Embedding of `spec_kit/core/validator.py` -/

/-- Source class `ValidationResult`. -/
structure VResult where
  passed : Bool
  message : String
  item : String
deriving DecidableEq, Repr

/-- The mutable counters of a `Validator` instance. -/
structure VState where
  passCount : Nat
  failCount : Nat
deriving DecidableEq, Repr

/-- Result built by `Validator._check_file` (no call site passes a
description, so the description is always `str(path)`). -/
def checkFileRes (fs : FS) (p : FPath) : VResult :=
  if fs.isFileAt p then ⟨true, pathStr p, pathStr p⟩
  else ⟨false, pathStr p ++ " (missing)", pathStr p⟩

/-- Counter update performed by `Validator._check_file`. -/
def checkFileSt (fs : FS) (p : FPath) (st : VState) : VState :=
  if fs.isFileAt p then ⟨st.passCount + 1, st.failCount⟩
  else ⟨st.passCount, st.failCount + 1⟩

/-- Source `Validator._check_file`: the returned result plus the counter
bump on the validator state. -/
def checkFile (fs : FS) (p : FPath) (st : VState) : VResult × VState :=
  (checkFileRes fs p, checkFileSt fs p st)

/-- Result built by `Validator._check_dir` (description always `f"{path}/"`). -/
def checkDirRes (fs : FS) (p : FPath) : VResult :=
  if fs.isDirAt p then ⟨true, pathStr p ++ "/", pathStr p⟩
  else ⟨false, pathStr p ++ "/" ++ " (missing)", pathStr p⟩

/-- Counter update performed by `Validator._check_dir`. -/
def checkDirSt (fs : FS) (p : FPath) (st : VState) : VState :=
  if fs.isDirAt p then ⟨st.passCount + 1, st.failCount⟩
  else ⟨st.passCount, st.failCount + 1⟩

/-- Source `Validator._check_dir`: the returned result plus the counter
bump on the validator state. -/
def checkDir (fs : FS) (p : FPath) (st : VState) : VResult × VState :=
  (checkDirRes fs p, checkDirSt fs p st)

/-- The extra failing result `check_core_files` records for an empty
plugin-skills directory. -/
def emptySkillsResult : VResult :=
  ⟨false, ".claude/skills/ (empty - no plugins installed)", ".claude/skills"⟩

/-- Source `Validator.check_core_files`.  Note the source computes
`claude_skills_empty = not any(iterdir()) if exists() else True`, so the
extra failing result is recorded both for an empty directory and for a
missing one. -/
def check_core_files (fs : FS) (st : VState) : List VResult × VState :=
  let pr1 := checkFile fs ["CLAUDE.md"] st
  let pr2 := checkDir fs [".claude", "skills"] pr1.2
  let pr3 := checkDir fs ["specs"] pr2.2
  let claude_skills_empty :=
    if fs.pathExists [".claude", "skills"] then
      (fs.childNames [".claude", "skills"]).isEmpty
    else true
  if claude_skills_empty then
    ([pr1.1, pr2.1, pr3.1, emptySkillsResult],
     ⟨pr3.2.passCount, pr3.2.failCount + 1⟩)
  else
    ([pr1.1, pr2.1, pr3.1], pr3.2)

/-- Per-plugin body of `Validator.check_plugins`: the `SKILL.md` check plus
the optional `references/` result. -/
def checkPluginDir (fs : FS) (name : String) (st : VState) : List VResult × VState :=
  let skillPath : FPath := [".claude", "skills", name, "SKILL.md"]
  let pr1 :=
    if fs.pathExists skillPath then
      ((⟨true, "Plugin: " ++ name, pathStr skillPath⟩ : VResult),
       (⟨st.passCount + 1, st.failCount⟩ : VState))
    else
      ((⟨false, "Plugin: " ++ name ++ " (missing SKILL.md)", pathStr skillPath⟩ : VResult),
       (⟨st.passCount, st.failCount + 1⟩ : VState))
  let refsPath : FPath := [".claude", "skills", name, "references"]
  if fs.isDirAt refsPath then
    ([pr1.1, ⟨true, "  └─ " ++ name ++ "/references/", pathStr refsPath⟩],
     ⟨pr1.2.passCount + 1, pr1.2.failCount⟩)
  else
    ([pr1.1], pr1.2)

/-- Iteration of `check_plugins` over the entries of the skills directory,
skipping entries that are not directories. -/
def checkPluginsGo (fs : FS) : List String → VState → List (String × List VResult) × VState
  | [], st => ([], st)
  | name :: rest, st =>
    if fs.isDirAt [".claude", "skills", name] then
      let pr := checkPluginDir fs name st
      let tail := checkPluginsGo fs rest pr.2
      ((name, pr.1) :: tail.1, tail.2)
    else checkPluginsGo fs rest st

/-- A value of the result dictionary of `run_all_checks`: either a list of
results (the `core`, per-plugin, `templates` and `documentation` keys) or the
single specs-summary advisory (the `specs_warning` key). -/
inductive Bucket
  | results (rs : List VResult)
  | warning (r : VResult)
deriving DecidableEq, Repr

/-- Source `Validator.check_plugins`. -/
def check_plugins (fs : FS) (st : VState) : List (String × Bucket) × VState :=
  if !(fs.pathExists [".claude", "skills"]) then
    ([("plugins", Bucket.results [])], st)
  else
    let pr := checkPluginsGo fs (fs.childNames [".claude", "skills"]) st
    (pr.1.map (fun e => (e.1, Bucket.results e.2)), pr.2)

/-- The optional passing result for one of the two named template files. -/
def checkTemplateFile (fs : FS) (p : FPath) (st : VState) : List VResult × VState :=
  if fs.pathExists p then
    ([⟨true, "Template: " ++ pathStr p, pathStr p⟩], ⟨st.passCount + 1, st.failCount⟩)
  else ([], st)

/-- Source `Validator.check_templates`. -/
def check_templates (fs : FS) (st : VState) : List VResult × VState :=
  let pr1 := checkDir fs ["specs", "features"] st
  let pr2 := checkDir fs ["specs", "api"] pr1.2
  let pr3 := checkTemplateFile fs ["specs", "feature.template.md"] pr2.2
  let pr4 := checkTemplateFile fs ["specs", "api.template.yaml"] pr3.2
  ([pr1.1, pr2.1] ++ pr3.1 ++ pr4.1, pr4.2)

/-- Source `Validator.check_documentation`. -/
def check_documentation (fs : FS) (st : VState) : List VResult × VState :=
  if fs.pathExists ["README.md"] then
    ([⟨true, "README.md", "README.md"⟩], ⟨st.passCount + 1, st.failCount⟩)
  else ([], st)

/-- Number of markdown files directly inside `specs/features`, as the source
counts them: `glob("*.md")` filtered of names that start with a dot. -/
def specMdCount (fs : FS) : Nat :=
  (((fs.childNames ["specs", "features"]).filter
      (fun n => pyEndsWith n ".md")).filter
      (fun n => !(pyStartsWith n "."))).length

/-- Message of the specs-summary advisory. -/
def specsSummaryMsg (n : Nat) : String :=
  "Consider creating specs/SPECIFICATIONS_SUMMARY.md for better spec tracking (" ++
    toString n ++ " specs found)"

/-- Source `Validator.check_specs_summary`. -/
def check_specs_summary (fs : FS) : Option VResult :=
  if !(fs.pathExists ["specs", "features"]) then none
  else
    let spec_count := specMdCount fs
    if spec_count ≥ 3 && !(fs.pathExists ["specs", "SPECIFICATIONS_SUMMARY.md"]) then
      some ⟨false, specsSummaryMsg spec_count, "specs/SPECIFICATIONS_SUMMARY.md"⟩
    else none

/-- The four unconditional check phases of `run_all_checks`, in source order,
starting from freshly reset counters. -/
def checkPhases (fs : FS) : List (String × Bucket) × VState :=
  let core := check_core_files fs ⟨0, 0⟩
  let plugs := check_plugins fs core.2
  let temps := check_templates fs plugs.2
  let docs := check_documentation fs temps.2
  ([("core", Bucket.results core.1)] ++ plugs.1 ++
     [("templates", Bucket.results temps.1), ("documentation", Bucket.results docs.1)],
   docs.2)

/-- Source `Validator.run_all_checks`: reset the counters, run the four
phases, then attach the specs-summary advisory under `specs_warning` when it
fires. -/
def run_all_checks (fs : FS) : List (String × Bucket) × VState :=
  let base := checkPhases fs
  match check_specs_summary fs with
  | some w => (base.1 ++ [("specs_warning", Bucket.warning w)], base.2)
  | none => base

/-- One serialized entry of the JSON `checks` buckets. -/
structure JsonCheckItem where
  passed : Bool
  message : String
  item : String
deriving DecidableEq, Repr

/-- Shape of the object `print_json` serializes. -/
structure JsonOutput where
  valid : Bool
  pass_count : Nat
  fail_count : Nat
  checks : List (String × List JsonCheckItem)
  warnings : Option (String × String)
deriving DecidableEq, Repr

/-- Serialization of one `ValidationResult` inside `print_json`. -/
def resultToJson (r : VResult) : JsonCheckItem := ⟨r.passed, r.message, r.item⟩

/-- One step of the `print_json` loop over the result buckets: the advisory
bucket goes to `warnings`, every list bucket goes to `checks`. -/
def printJsonStep (out : JsonOutput) (e : String × Bucket) : JsonOutput :=
  match e.2 with
  | Bucket.warning w => { out with warnings := some (w.message, w.item) }
  | Bucket.results rs =>
    { out with checks := out.checks ++ [(e.1, rs.map resultToJson)] }

/-- Source `Validator.print_json`: build the output object from the result
buckets and the counters.  (The `isinstance(items, dict)` branch of the
source is unreachable for `run_all_checks` output, whose plugin buckets are
plain lists, and has no counterpart here.) -/
def print_json (results : List (String × Bucket)) (st : VState) : JsonOutput :=
  results.foldl printJsonStep ⟨st.failCount == 0, st.passCount, st.failCount, [], none⟩

/-- Serialized items of one bucket (used to state what `print_json` puts
under `checks`). -/
def bucketJsonItems : Bucket → List JsonCheckItem
  | Bucket.results rs => rs.map resultToJson
  | Bucket.warning r => [resultToJson r]

/-- Source `Validator.get_exit_code`: `0 if self.fail_count == 0 else 1`. -/
def get_exit_code (st : VState) : Nat := if st.failCount == 0 then 0 else 1

/-! ## Embedding of `spec_kit/core/installer.py` and `spec_kit/commands/init.py` -/

/-- One entry of the static plugin registry. -/
structure PluginInfo where
  name : String
  aliases : List String
  description : String
  skill_command : String
deriving DecidableEq, Repr

/-- Source registry `AVAILABLE_PLUGINS`, in dictionary order. -/
def AVAILABLE_PLUGINS : List (String × PluginInfo) :=
  [("api-development",
    ⟨"api-development", ["api"], "FastAPI + AWS SAM/Lambda patterns",
     "/api-development or /api"⟩),
   ("ai-app",
    ⟨"ai-app", ["ai"], "LLM integration (Claude, OpenAI)", "/ai-app"⟩)]

/-- Python exceptions that flow through the installer and the init command. -/
inductive PyExc
  | fileNotFound
  | fileExists
  | notADirectory
  | valueError (msg : String)
  | runtimeError
  | keyboardInterrupt
  | eofError
  | systemExit (code : Nat)
deriving DecidableEq, Repr

/-- Filesystem writes performed by the installer, recorded in source order.
An empty trace means the target tree is exactly as before the call. -/
inductive WriteOp
  | copyFile (src dest : FPath)
  | mkdir (p : FPath)
  | copyTree (src dest : FPath)
  | writeGitignore (content : String)
deriving DecidableEq, Repr

/-- The `plugin.strip().lower()` normalization of `select_plugins_from_args`. -/
def normalizeToken (t : String) : String := pyLower (pyStrip t)

/-- The `', '.join(AVAILABLE_PLUGINS.keys())` listing of canonical names. -/
def availablePluginNames : String :=
  String.intercalate ", " (AVAILABLE_PLUGINS.map (fun e => e.1))

/-- The unknown-plugin `ValueError` message, naming the offending (already
normalized) token and listing all canonical names. -/
def unknownPluginMsg (tok : String) : String :=
  "Unknown plugin: " ++ tok ++ "\nAvailable plugins: " ++ availablePluginNames

/-- Resolution of one normalized token: first as a registry key, then as an
alias of some registry value (in registry order), as the source does. -/
def resolveToken (tok : String) : Option String :=
  if (AVAILABLE_PLUGINS.find? (fun e => e.1 == tok)).isSome then some tok
  else
    ((AVAILABLE_PLUGINS.map (fun e => e.2)).find?
        (fun info => info.aliases.contains tok)).map (fun info => info.name)

/-- Loop of `select_plugins_from_args` with the accumulated resolved list. -/
def selectFromArgsGo : List String → List String → Except PyExc (List String)
  | [], acc => Except.ok acc
  | p :: rest, acc =>
    match resolveToken (normalizeToken p) with
    | some nm => selectFromArgsGo rest (acc ++ [nm])
    | none => Except.error (PyExc.valueError (unknownPluginMsg (normalizeToken p)))

/-- Source `Installer.select_plugins_from_args`. -/
def select_plugins_from_args (plugins : List String) : Except PyExc (List String) :=
  selectFromArgsGo plugins []

/-- One event read from standard input: a line, or a keyboard interrupt. -/
inductive InEvent
  | line (s : String)
  | interrupt
deriving DecidableEq, Repr

/-- Parse every token with Python `int()`; `none` models the `ValueError`
raised by the first unparsable token. -/
def parseIntTokens : List String → Option (List Int)
  | [] => some []
  | x :: rest =>
    match pyToIntOpt (pyStrip x) with
    | some n => (parseIntTokens rest).map (fun ns => n :: ns)
    | none => none

/-- The menu order of `select_plugins_interactive`: registry values. -/
def pluginMenuNames : List String := AVAILABLE_PLUGINS.map (fun e => e.2.name)

/-- Source `Installer.select_plugins_interactive`: the input loop.  A
keyboard interrupt is caught and re-raised as `SystemExit(0)` by the source;
exhausted input models `EOFError`, which no handler of the loop catches. -/
def select_plugins_interactive : List InEvent → Except PyExc (List String × List InEvent)
  | [] => Except.error PyExc.eofError
  | InEvent.interrupt :: _ => Except.error (PyExc.systemExit 0)
  | InEvent.line s :: rest =>
    let selection := pyStrip s
    if pyLower selection == "all" then Except.ok (pluginMenuNames, rest)
    else
      match parseIntTokens (pySplitWs selection) with
      | none => select_plugins_interactive rest
      | some numbers =>
        let selected := numbers.filterMap (fun num =>
          if 1 ≤ num ∧ num ≤ (pluginMenuNames.length : Int) then
            pluginMenuNames.get? (num - 1).toNat
          else none)
        if selected.isEmpty then select_plugins_interactive rest
        else Except.ok (selected, rest)

/-- Source `Installer.confirm_installation`: a keyboard interrupt is caught
and reported as a `False` answer. -/
def confirm_installation : List InEvent → Except PyExc (Bool × List InEvent)
  | [] => Except.error PyExc.eofError
  | InEvent.interrupt :: rest => Except.ok (false, rest)
  | InEvent.line s :: rest =>
    Except.ok (["y", "yes"].contains (pyLower (pyStrip s)), rest)

/-- Source `Installer.validate_environment`: the source root must contain
`core/CLAUDE.md`. -/
def validate_environment (src : FS) : Option PyExc :=
  if src.pathExists ["core", "CLAUDE.md"] then none else some PyExc.fileNotFound

/-- Source `Installer.validate_target`. -/
def validate_target (tgt : FS) (force : Bool) : Option PyExc :=
  if !(tgt.pathExists []) then some PyExc.fileNotFound
  else if !(tgt.isDirAt []) then some PyExc.notADirectory
  else if tgt.pathExists ["CLAUDE.md"] && !force then some PyExc.fileExists
  else none

/-- Writes of `Installer.install_core`. -/
def install_core_ops : List WriteOp :=
  [WriteOp.copyFile ["core", "CLAUDE.md"] ["CLAUDE.md"],
   WriteOp.mkdir [".claude", "skills"],
   WriteOp.mkdir ["specs", "features"],
   WriteOp.mkdir ["specs", "api"]]

/-- Writes of `Installer.install_plugins` for one plugin: a missing plugin
folder is skipped with a warning; the destination directory is created before
the skill-file check, exactly as in the source. -/
def installPluginOps (src : FS) (plugin : String) : List WriteOp :=
  if !(src.pathExists ["plugins", plugin]) then []
  else
    [WriteOp.mkdir [".claude", "skills", plugin]] ++
    (if !(src.pathExists ["plugins", plugin, "skill.md"]) then []
     else
       [WriteOp.copyFile ["plugins", plugin, "skill.md"]
          [".claude", "skills", plugin, "SKILL.md"]] ++
       (if src.isDirAt ["plugins", plugin, "templates"] then
          [WriteOp.mkdir [".claude", "skills", plugin, "references"],
           WriteOp.copyTree ["plugins", plugin, "templates"]
             [".claude", "skills", plugin, "references"],
           WriteOp.mkdir [".spec-kit-templates", plugin],
           WriteOp.copyTree ["plugins", plugin, "templates"]
             [".spec-kit-templates", plugin]]
        else []))

/-- Writes of `Installer.install_plugins` over the resolved selection. -/
def install_plugins_ops (src : FS) (plugins : List String) : List WriteOp :=
  plugins.flatMap (installPluginOps src)

/-- Writes of `Installer.install_templates`.  When `templates/specs` exists
but is not a directory, `safe_copy_tree` raises before its first write and
the exception is caught as a warning, so no write happens. -/
def install_templates_ops (src : FS) : List WriteOp :=
  if !(src.pathExists ["templates", "specs"]) then []
  else if src.isDirAt ["templates", "specs"] then
    [WriteOp.copyTree ["templates", "specs"] ["specs"]]
  else []

/-- Source `Installer.offer_architecture_doc`: interactive-only prompt; a
keyboard interrupt is caught and skips the copy. -/
def offer_architecture_doc (interactive : Bool) (src : FS) (events : List InEvent) :
    List WriteOp × List InEvent × Option PyExc :=
  if !interactive then ([], events, none)
  else
    match events with
    | [] => ([], [], some PyExc.eofError)
    | InEvent.interrupt :: rest => ([], rest, none)
    | InEvent.line s :: rest =>
      if ["y", "yes"].contains (pyLower (pyStrip s)) then
        if src.pathExists ["templates", "specs", "architecture.template.md"] then
          ([WriteOp.copyFile ["templates", "specs", "architecture.template.md"]
              ["specs", "architecture.md"]], rest, none)
        else ([], rest, none)
      else ([], rest, none)

/-- Current content of the target `.gitignore`, if it exists as a file. -/
def readGitignore (tgt : FS) : Option String :=
  match tgt.find [".gitignore"] with
  | some (Node.file c) => some c
  | _ => none

/-- Writes of `Installer.update_project_gitignore`. -/
def update_project_gitignore_ops (tgt : FS) : List WriteOp :=
  let res := update_gitignore (readGitignore tgt) get_gitignore_entries
  if res.2 then [WriteOp.writeGitignore (res.1.getD "")] else []

/-- The write phase of `run_installation`: core files, plugins, templates,
the optional architecture document, then the gitignore update. -/
def runInstallWritePhase (src tgt : FS) (selected : List String) (interactive : Bool)
    (events : List InEvent) : List WriteOp × Option PyExc :=
  let ops1 := install_core_ops ++ install_plugins_ops src selected ++
    install_templates_ops src
  match offer_architecture_doc interactive src events with
  | (ops2, _, some e) => (ops1 ++ ops2, some e)
  | (ops2, _, none) => (ops1 ++ ops2 ++ update_project_gitignore_ops tgt, none)

/-- Source `Installer.run_installation`.  The result is the trace of writes
performed before returning or before the exception escaped, together with
the escaped exception if any.  `if plugins:` of the source is true only for
a non-empty list. -/
def run_installation (src tgt : FS) (plugins : Option (List String))
    (force interactive : Bool) (events : List InEvent) :
    List WriteOp × Option PyExc :=
  match validate_environment src with
  | some e => ([], some e)
  | none =>
    match validate_target tgt force with
    | some e => ([], some e)
    | none =>
      let sel : Except PyExc (List String × List InEvent) :=
        match plugins with
        | some (p :: ps) =>
          match select_plugins_from_args (p :: ps) with
          | Except.ok names => Except.ok (names, events)
          | Except.error e => Except.error e
        | _ =>
          if interactive then select_plugins_interactive events
          else Except.ok (["api-development"], events)
      match sel with
      | Except.error e => ([], some e)
      | Except.ok (selected, events1) =>
        if interactive then
          match confirm_installation events1 with
          | Except.error e => ([], some e)
          | Except.ok (false, _) => ([], none)
          | Except.ok (true, events2) =>
            runInstallWritePhase src tgt selected interactive events2
        else runInstallWritePhase src tgt selected interactive events1

/-- Exit code the init process ends with for a given escaped exception.
`execute` in `commands/init.py` catches `FileNotFoundError`,
`FileExistsError`, `ValueError`, `RuntimeError` and generic `Exception`
(hence also `EOFError` and `NotADirectoryError`) returning 1, and
`KeyboardInterrupt` returning 130.  `SystemExit` is a `BaseException`, is
caught by none of those handlers nor by `cli.main`, and terminates the
process with its payload. -/
def exceptionExitCode : PyExc → Nat
  | PyExc.fileNotFound => 1
  | PyExc.fileExists => 1
  | PyExc.notADirectory => 1
  | PyExc.valueError _ => 1
  | PyExc.runtimeError => 1
  | PyExc.keyboardInterrupt => 130
  | PyExc.eofError => 1
  | PyExc.systemExit code => code

/-- The `--plugins` argument handling of `execute`: `None` or an empty string
stays `None` (Python truthiness), otherwise split on commas and strip. -/
def parsePluginsArg (pluginsArg : Option String) : Option (List String) :=
  match pluginsArg with
  | none => none
  | some s => if s == "" then none else some ((pySplitComma s).map pyStrip)

/-- Process exit code of `spec-kit init`, combining `execute` of
`commands/init.py` with the exception behaviour above. -/
def initProcessExitCode (src tgt : FS) (pluginsArg : Option String)
    (noInteractive force : Bool) (events : List InEvent) : Nat :=
  match (run_installation src tgt (parsePluginsArg pluginsArg) force
      (!noInteractive) events).2 with
  | none => 0
  | some e => exceptionExitCode e

/-- Decidable equality of plugin-resolution results, used to settle concrete
evaluations of `select_plugins_from_args`. -/
instance : DecidableEq (Except PyExc (List String)) := fun a b =>
  match a, b with
  | Except.ok x, Except.ok y =>
    if h : x = y then isTrue (by rw [h])
    else isFalse (fun hc => h (Except.ok.inj hc))
  | Except.error x, Except.error y =>
    if h : x = y then isTrue (by rw [h])
    else isFalse (fun hc => h (Except.error.inj hc))
  | Except.ok _, Except.error _ => isFalse (fun hc => Except.noConfusion hc)
  | Except.error _, Except.ok _ => isFalse (fun hc => Except.noConfusion hc)

/-! ## Concrete test fixtures used by witnesses and counterexamples -/

/-- A valid spec-kit source root: core marker, one plugin, template tree. -/
def srcFS : FS :=
  ⟨[([], Node.dir),
    (["core"], Node.dir),
    (["core", "CLAUDE.md"], Node.file "# Spec-Kit"),
    (["plugins"], Node.dir),
    (["plugins", "api-development"], Node.dir),
    (["plugins", "api-development", "skill.md"], Node.file "skill"),
    (["templates"], Node.dir),
    (["templates", "specs"], Node.dir)]⟩

/-- An empty target directory. -/
def emptyTargetFS : FS := ⟨[([], Node.dir)]⟩

/-- A target tree with a marker file and specs directory but no
`.claude/skills` directory at all. -/
def fsNoSkills : FS :=
  ⟨[([], Node.dir),
    (["CLAUDE.md"], Node.file "# Spec-Kit"),
    (["specs"], Node.dir)]⟩

/-- A fully valid installed tree whose only reportable condition is the
specs-summary advisory: three markdown specs and no summary file. -/
def fsAdvisory : FS :=
  ⟨[([], Node.dir),
    (["CLAUDE.md"], Node.file "# Spec-Kit"),
    ([".claude"], Node.dir),
    ([".claude", "skills"], Node.dir),
    ([".claude", "skills", "api-development"], Node.dir),
    ([".claude", "skills", "api-development", "SKILL.md"], Node.file "skill"),
    (["specs"], Node.dir),
    (["specs", "features"], Node.dir),
    (["specs", "features", "a.md"], Node.file "a"),
    (["specs", "features", "b.md"], Node.file "b"),
    (["specs", "features", "c.md"], Node.file "c"),
    (["specs", "api"], Node.dir)]⟩

/-! ## Supporting lemmas for the string model -/

theorem listContainsSub_iff (sub s : List Char) :
    listContainsSub sub s = true ↔ sub <:+: s := by
  induction s with
  | nil =>
    simp [listContainsSub, List.isEmpty_iff]
  | cons c rest ih =>
    simp [listContainsSub, List.infix_cons_iff, ih, List.isPrefixOf_iff_prefix]

theorem pyContains_iff (s sub : String) :
    pyContains s sub = true ↔ sub.data <:+: s.data := by
  simpa [pyContains] using listContainsSub_iff sub.data s.data

theorem sentinel_infix_appendText :
    (".spec-kit-templates/").data <:+: (gitignoreAppendText get_gitignore_entries).data := by
  decide

theorem pyContains_append_of_right (a b sub : String)
    (h : sub.data <:+: b.data) : pyContains (a ++ b) sub = true := by
  rw [pyContains_iff, String.data_append]
  exact h.trans (List.suffix_append a.data b.data).isInfix

/-! ## Claim theorems about the gitignore update -/

/-- C10: sentinel detection in `update_gitignore` is plain substring
containment.  Whenever the existing `.gitignore` content contains the
characters `.spec-kit-templates/` anywhere — also inside a longer line or a
comment — the call writes nothing and returns `false`; it appends the three
entries exactly when the substring is absent, and when the file does not
exist it creates it with exactly the appended entries. -/
theorem update_gitignore_substring_containment (c : String) :
    (((".spec-kit-templates/").data <:+: c.data) →
      update_gitignore (some c) get_gitignore_entries = (some c, false)) ∧
    (¬ ((".spec-kit-templates/").data <:+: c.data) →
      update_gitignore (some c) get_gitignore_entries =
        (some (c ++ gitignoreAppendText get_gitignore_entries), true)) ∧
    update_gitignore none get_gitignore_entries =
      (some ("" ++ gitignoreAppendText get_gitignore_entries), true) := by
  refine ⟨fun h => ?_, fun h => ?_, ?_⟩
  · simp [update_gitignore, (pyContains_iff c ".spec-kit-templates/").mpr h]
  · have hb : pyContains c ".spec-kit-templates/" = false := by
      cases hx : pyContains c ".spec-kit-templates/" with
      | true => exact absurd ((pyContains_iff c ".spec-kit-templates/").mp hx) h
      | false => rfl
    simp [update_gitignore, hb]
  · decide

/-- Witness for C10 at a content whose sentinel occurrence sits inside a
longer comment line. -/
theorem update_gitignore_substring_containment_witness :
    update_gitignore (some "# note: .spec-kit-templates/ is a cache")
        get_gitignore_entries =
      (some "# note: .spec-kit-templates/ is a cache", false) :=
  (update_gitignore_substring_containment
      "# note: .spec-kit-templates/ is a cache").1 (by decide)

/-- C3: the gitignore update is idempotent.  For every starting file state,
running `update_gitignore` a second time with the standard entries leaves the
file exactly as after the first call and returns `false` ("no change"), so
the sentinel line is never duplicated. -/
theorem update_gitignore_idempotent (existing : Option String) :
    update_gitignore (update_gitignore existing get_gitignore_entries).1
        get_gitignore_entries =
      ((update_gitignore existing get_gitignore_entries).1, false) := by
  cases hx : pyContains (existing.getD "") ".spec-kit-templates/" with
  | true =>
    have h1 : update_gitignore existing get_gitignore_entries = (existing, false) := by
      simp [update_gitignore, hx]
    rw [h1]
    cases existing with
    | none => exact absurd hx (by decide)
    | some c =>
      have hc : pyContains c ".spec-kit-templates/" = true := hx
      simp [update_gitignore, hc]
  | false =>
    have h1 : update_gitignore existing get_gitignore_entries =
        (some (existing.getD "" ++ gitignoreAppendText get_gitignore_entries), true) := by
      simp [update_gitignore, hx]
    rw [h1]
    have h2 : pyContains (existing.getD "" ++ gitignoreAppendText get_gitignore_entries)
        ".spec-kit-templates/" = true :=
      pyContains_append_of_right _ _ _ sentinel_infix_appendText
    simp [update_gitignore, h2]

/-! ## Supporting lemmas for the validator -/

theorem checkFile_claude_ne_empty (fs : FS) (st : VState) :
    (checkFile fs ["CLAUDE.md"] st).1 ≠ emptySkillsResult := by
  show checkFileRes fs ["CLAUDE.md"] ≠ emptySkillsResult
  unfold checkFileRes
  split <;> decide

theorem checkDir_skills_ne_empty (fs : FS) (st : VState) :
    (checkDir fs [".claude", "skills"] st).1 ≠ emptySkillsResult := by
  show checkDirRes fs [".claude", "skills"] ≠ emptySkillsResult
  unfold checkDirRes
  split <;> decide

theorem checkDir_specs_ne_empty (fs : FS) (st : VState) :
    (checkDir fs ["specs"] st).1 ≠ emptySkillsResult := by
  show checkDirRes fs ["specs"] ≠ emptySkillsResult
  unfold checkDirRes
  split <;> decide

theorem check_core_files_shape (fs : FS) (st : VState) :
    (check_core_files fs st).1 =
      [(checkFile fs ["CLAUDE.md"] st).1,
       (checkDir fs [".claude", "skills"] (checkFile fs ["CLAUDE.md"] st).2).1,
       (checkDir fs ["specs"]
         (checkDir fs [".claude", "skills"] (checkFile fs ["CLAUDE.md"] st).2).2).1] ++
      (if (if fs.pathExists [".claude", "skills"] then
             (fs.childNames [".claude", "skills"]).isEmpty
           else true)
       then [emptySkillsResult] else []) := by
  unfold check_core_files
  by_cases hp : fs.pathExists [".claude", "skills"] = true
  · by_cases he : (fs.childNames [".claude", "skills"]).isEmpty = true
    · simp [hp, he]
    · simp [hp, he]
  · simp [hp]

/-! ## Claim theorems about the validator -/

/-- C2: for every report state, the exit code is 0 exactly when the
accumulated `fail_count` is 0, and `get_exit_code` reads nothing but the
already-accumulated `fail_count` (two states with equal `fail_count` get
equal exit codes, whatever their other content). -/
theorem get_exit_code_spec (st st2 : VState) :
    (get_exit_code st = 0 ↔ st.failCount = 0) ∧
    (st.failCount = st2.failCount → get_exit_code st = get_exit_code st2) := by
  constructor
  · unfold get_exit_code
    by_cases h : st.failCount = 0 <;> simp [h]
  · intro h
    unfold get_exit_code
    rw [h]

/-- Witness for C2 at two concrete states with equal fail counts. -/
theorem get_exit_code_spec_witness :
    get_exit_code ⟨5, 0⟩ = get_exit_code ⟨7, 0⟩ ∧ get_exit_code ⟨5, 0⟩ = 0 :=
  ⟨(get_exit_code_spec ⟨5, 0⟩ ⟨7, 0⟩).2 rfl,
   (get_exit_code_spec ⟨5, 0⟩ ⟨7, 0⟩).1.mpr rfl⟩

/-- Counterexample to C5 as stated: in a tree whose `.claude/skills`
directory does not exist at all, `check_core_files` still records the extra
failing "empty - no plugins installed" result (the source sets
`claude_skills_empty = True` when the directory is missing). -/
theorem check_core_files_missing_dir_counterexample :
    fsNoSkills.pathExists [".claude", "skills"] = false ∧
    (check_core_files fsNoSkills ⟨0, 0⟩).1.length = 4 ∧
    (check_core_files fsNoSkills ⟨0, 0⟩).1.getLast? = some emptySkillsResult ∧
    (check_core_files fsNoSkills ⟨0, 0⟩).2.failCount = 2 := by
  decide

/-- C5 as amended: the extra failing "empty - no plugins installed" result
is recorded exactly when the plugin-skills directory is missing or exists
with zero entries; when it exists with at least one entry the three plain
existence checks are the whole outcome. -/
theorem check_core_files_extra_result (fs : FS) (st : VState)
    (h : fs.find [".claude", "skills"] = some Node.dir ∨
         fs.find [".claude", "skills"] = none) :
    ∃ rs : List VResult,
      (check_core_files fs st).1 =
        rs ++ (if fs.find [".claude", "skills"] = none ∨
                  fs.childNames [".claude", "skills"] = []
               then [emptySkillsResult] else []) ∧
      rs.length = 3 ∧ emptySkillsResult ∉ rs := by
  refine ⟨[(checkFile fs ["CLAUDE.md"] st).1,
           (checkDir fs [".claude", "skills"] (checkFile fs ["CLAUDE.md"] st).2).1,
           (checkDir fs ["specs"]
             (checkDir fs [".claude", "skills"] (checkFile fs ["CLAUDE.md"] st).2).2).1],
         ?_, rfl, ?_⟩
  · rw [check_core_files_shape]
    rcases h with hd | hn
    · by_cases hemp : fs.childNames [".claude", "skills"] = []
      · simp [FS.pathExists, hd, hemp]
      · simp [FS.pathExists, hd, hemp, List.isEmpty_iff]
    · simp [FS.pathExists, hn]
  · intro hmem
    simp only [List.mem_cons, List.not_mem_nil, or_false] at hmem
    rcases hmem with h1 | h2 | h3
    · exact checkFile_claude_ne_empty fs st h1.symm
    · exact checkDir_skills_ne_empty fs _ h2.symm
    · exact checkDir_specs_ne_empty fs _ h3.symm

/-- Witness for the amended C5 at a tree whose skills directory exists and
has one entry: no extra result is recorded. -/
theorem check_core_files_extra_result_witness :
    ∃ rs : List VResult,
      (check_core_files fsAdvisory ⟨0, 0⟩).1 =
        rs ++ (if fsAdvisory.find [".claude", "skills"] = none ∨
                  fsAdvisory.childNames [".claude", "skills"] = []
               then [emptySkillsResult] else []) ∧
      rs.length = 3 ∧ emptySkillsResult ∉ rs :=
  check_core_files_extra_result fsAdvisory ⟨0, 0⟩ (Or.inl (by decide))

/-- C7: the specs-summary heuristic emits nothing when `specs/features`
does not exist; when it exists it emits exactly one failing advisory for
item `specs/SPECIFICATIONS_SUMMARY.md` when the (non-hidden) markdown count
is at least 3 and the summary file is missing, and nothing otherwise. -/
theorem check_specs_summary_cases (fs : FS) :
    (fs.pathExists ["specs", "features"] = false → check_specs_summary fs = none) ∧
    (fs.pathExists ["specs", "features"] = true →
      (3 ≤ specMdCount fs →
        fs.pathExists ["specs", "SPECIFICATIONS_SUMMARY.md"] = false →
        check_specs_summary fs =
          some ⟨false, specsSummaryMsg (specMdCount fs),
                "specs/SPECIFICATIONS_SUMMARY.md"⟩) ∧
      (specMdCount fs < 3 ∨ fs.pathExists ["specs", "SPECIFICATIONS_SUMMARY.md"] = true →
        check_specs_summary fs = none)) := by
  refine ⟨fun h => ?_, fun h => ⟨fun h3 hs => ?_, fun ho => ?_⟩⟩
  · simp [check_specs_summary, h]
  · simp [check_specs_summary, h, hs, h3]
  · rcases ho with hlt | hex
    · simp [check_specs_summary, h, Nat.not_le.mpr hlt]
    · simp [check_specs_summary, h, hex]

/-- Witness for C7 at the advisory tree: three markdown specs, no summary
file, one failing advisory emitted. -/
theorem check_specs_summary_cases_witness :
    check_specs_summary fsAdvisory =
      some ⟨false, specsSummaryMsg (specMdCount fsAdvisory),
            "specs/SPECIFICATIONS_SUMMARY.md"⟩ :=
  ((check_specs_summary_cases fsAdvisory).2 (by decide)).1 (by decide) (by decide)

/-! ## Supporting lemmas for the JSON rendering -/

theorem printJsonStep_valid (out : JsonOutput) (e : String × Bucket) :
    (printJsonStep out e).valid = out.valid := by
  unfold printJsonStep
  rcases e with ⟨k, b⟩
  cases b <;> rfl

theorem printJsonStep_warning_checks (out : JsonOutput) (k : String) (w : VResult) :
    (printJsonStep out (k, Bucket.warning w)).checks = out.checks := rfl

theorem printJsonFold_valid (l : List (String × Bucket)) (out : JsonOutput) :
    (l.foldl printJsonStep out).valid = out.valid := by
  induction l generalizing out with
  | nil => rfl
  | cons e rest ih => rw [List.foldl_cons, ih, printJsonStep_valid]

theorem printJsonFold_results :
    ∀ (l : List (String × Bucket)) (out : JsonOutput),
      (∀ e ∈ l, ∃ rs, e.2 = Bucket.results rs) →
      (l.foldl printJsonStep out).checks =
        out.checks ++ l.map (fun e => (e.1, bucketJsonItems e.2)) ∧
      (l.foldl printJsonStep out).warnings = out.warnings
  | [], out, _ => by simp
  | e :: rest, out, h => by
    obtain ⟨rs, hrs⟩ := h e (List.mem_cons_self e rest)
    have hstep : printJsonStep out e =
        { out with checks := out.checks ++ [(e.1, rs.map resultToJson)] } := by
      unfold printJsonStep
      rw [hrs]
    have h2 := printJsonFold_results rest
      { out with checks := out.checks ++ [(e.1, rs.map resultToJson)] }
      (fun x hx => h x (List.mem_cons_of_mem e hx))
    rw [List.foldl_cons, hstep]
    refine ⟨?_, h2.2⟩
    rw [h2.1]
    simp [hrs, bucketJsonItems, List.append_assoc]

theorem check_plugins_results (fs : FS) (st : VState) :
    ∀ e ∈ (check_plugins fs st).1, ∃ rs, e.2 = Bucket.results rs := by
  intro e he
  unfold check_plugins at he
  by_cases hp : fs.pathExists [".claude", "skills"] = true
  · simp only [hp, Bool.not_true, Bool.false_eq_true, if_false, List.mem_map] at he
    obtain ⟨x, _, rfl⟩ := he
    exact ⟨x.2, rfl⟩
  · simp only [Bool.not_eq_true] at hp
    simp only [hp, Bool.not_false, if_true, List.mem_singleton] at he
    exact ⟨[], by rw [he]⟩

theorem checkPhases_results (fs : FS) :
    ∀ e ∈ (checkPhases fs).1, ∃ rs, e.2 = Bucket.results rs := by
  intro e he
  unfold checkPhases at he
  simp only [List.append_assoc, List.mem_append, List.mem_cons,
    List.not_mem_nil, or_false] at he
  rcases he with h | h | h | h
  · exact ⟨(check_core_files fs ⟨0, 0⟩).1, by rw [h]⟩
  · exact check_plugins_results fs _ e h
  · exact ⟨(check_templates fs (check_plugins fs (check_core_files fs ⟨0, 0⟩).2).2).1,
      by rw [h]⟩
  · exact ⟨(check_documentation fs
        (check_templates fs (check_plugins fs (check_core_files fs ⟨0, 0⟩).2).2).2).1,
      by rw [h]⟩

/-- C9: the specs-summary advisory never touches the counters or the
verdict.  The counters after `run_all_checks` are exactly those of the four
check phases; the exit code and the JSON `valid` field depend on those
counters alone; the advisory is serialized only under `warnings`, while
`checks` holds exactly the four phases' buckets.  On the concrete tree whose
only reportable condition is the advisory, `fail_count` is 0, the JSON says
`valid`, and the exit code is 0. -/
theorem specs_summary_advisory_frame (fs : FS) :
    (run_all_checks fs).2 = (checkPhases fs).2 ∧
    get_exit_code (run_all_checks fs).2 = get_exit_code (checkPhases fs).2 ∧
    (print_json (run_all_checks fs).1 (run_all_checks fs).2).valid =
      ((checkPhases fs).2.failCount == 0) ∧
    (print_json (run_all_checks fs).1 (run_all_checks fs).2).warnings =
      (check_specs_summary fs).map (fun r => (r.message, r.item)) ∧
    (print_json (run_all_checks fs).1 (run_all_checks fs).2).checks =
      (checkPhases fs).1.map (fun e => (e.1, bucketJsonItems e.2)) ∧
    (run_all_checks fsAdvisory).2.failCount = 0 ∧
    (check_specs_summary fsAdvisory).isSome = true ∧
    get_exit_code (run_all_checks fsAdvisory).2 = 0 ∧
    (print_json (run_all_checks fsAdvisory).1 (run_all_checks fsAdvisory).2).valid
      = true := by
  have hstate : (run_all_checks fs).2 = (checkPhases fs).2 := by
    unfold run_all_checks
    cases check_specs_summary fs <;> rfl
  have hvalid : (print_json (run_all_checks fs).1 (run_all_checks fs).2).valid =
      ((checkPhases fs).2.failCount == 0) := by
    unfold print_json
    rw [printJsonFold_valid, hstate]
  have hphase := printJsonFold_results (checkPhases fs).1
    ⟨(checkPhases fs).2.failCount == 0, (checkPhases fs).2.passCount,
     (checkPhases fs).2.failCount, [], none⟩ (checkPhases_results fs)
  have hwc : (print_json (run_all_checks fs).1 (run_all_checks fs).2).warnings =
      (check_specs_summary fs).map (fun r => (r.message, r.item)) ∧
      (print_json (run_all_checks fs).1 (run_all_checks fs).2).checks =
      (checkPhases fs).1.map (fun e => (e.1, bucketJsonItems e.2)) := by
    unfold print_json run_all_checks
    cases hw : check_specs_summary fs with
    | none =>
      refine ⟨hphase.2.trans rfl, hphase.1.trans ?_⟩
      simp
    | some w =>
      simp only [List.foldl_append]
      constructor
      · rfl
      · show (printJsonStep _ ("specs_warning", Bucket.warning w)).checks = _
        rw [printJsonStep_warning_checks, hphase.1]
        simp
  exact ⟨hstate, by rw [hstate], hvalid, hwc.1, hwc.2,
    by decide, by decide, by decide, by decide⟩

/-! ## Supporting lemmas for plugin resolution -/

theorem selectFromArgsGo_error (ps : List String) :
    ∀ acc : List String,
      (∃ t ∈ ps, resolveToken (normalizeToken t) = none) →
      ∃ tok, tok ∈ ps.map normalizeToken ∧ resolveToken tok = none ∧
        selectFromArgsGo ps acc =
          Except.error (PyExc.valueError (unknownPluginMsg tok)) := by
  induction ps with
  | nil =>
    intro acc h
    simp at h
  | cons p rest ih =>
    intro acc h
    cases hp : resolveToken (normalizeToken p) with
    | none =>
      refine ⟨normalizeToken p, by simp, hp, ?_⟩
      simp [selectFromArgsGo, hp]
    | some nm =>
      have h2 : ∃ t ∈ rest, resolveToken (normalizeToken t) = none := by
        rcases h with ⟨t, ht, hnone⟩
        rcases List.mem_cons.mp ht with rfl | hmem
        · rw [hp] at hnone
          exact absurd hnone (by simp)
        · exact ⟨t, hmem, hnone⟩
      obtain ⟨tok, h1, hnone, heq⟩ := ih (acc ++ [nm]) h2
      refine ⟨tok, ?_, hnone, ?_⟩
      · simp only [List.map_cons]
        exact List.mem_cons_of_mem _ h1
      · simp [selectFromArgsGo, hp, heq]

theorem selectFromArgsGo_mapped : ∀ (ps cs acc : List String),
    ps.map (fun t => resolveToken (normalizeToken t)) = cs.map some →
    selectFromArgsGo ps acc = Except.ok (acc ++ cs)
  | [], cs, acc, h => by
    have hcs : cs = [] := by
      cases cs with
      | nil => rfl
      | cons c cs2 => simp at h
    subst hcs
    simp [selectFromArgsGo]
  | p :: rest, cs, acc, h => by
    cases cs with
    | nil => simp at h
    | cons c cs2 =>
      simp only [List.map_cons, List.cons.injEq] at h
      have heq := selectFromArgsGo_mapped rest cs2 (acc ++ [c]) h.2
      simp [selectFromArgsGo, h.1, heq]

/-! ## Claim theorems about the installer -/

/-- C1: plugin resolution is atomic.  When the requested plugin list is
non-empty and contains a token that resolves neither as a canonical name nor
as an alias, pre-flight-valid `run_installation` performs no write at all
(an empty write trace: no marker copy, no directory creation, no plugin
install, no gitignore change) and escapes with the unknown-plugin
`ValueError` that names the normalized offending token and lists all
canonical names. -/
theorem run_installation_unknown_plugin_atomic (src tgt : FS) (ps : List String)
    (force interactive : Bool) (events : List InEvent)
    (henv : validate_environment src = none)
    (htgt : validate_target tgt force = none)
    (hbad : ∃ t ∈ ps, resolveToken (normalizeToken t) = none) :
    ∃ tok, tok ∈ ps.map normalizeToken ∧ resolveToken tok = none ∧
      run_installation src tgt (some ps) force interactive events =
        ([], some (PyExc.valueError (unknownPluginMsg tok))) := by
  obtain ⟨tok, h1, h2, h3⟩ := selectFromArgsGo_error ps [] hbad
  refine ⟨tok, h1, h2, ?_⟩
  cases ps with
  | nil => simp at h1
  | cons p rest =>
    have hsel : select_plugins_from_args (p :: rest) =
        Except.error (PyExc.valueError (unknownPluginMsg tok)) := h3
    simp [run_installation, henv, htgt, hsel]

/-- Witness for C1: requesting the unknown token `nope` writes nothing. -/
theorem run_installation_unknown_plugin_atomic_witness :
    ∃ tok, tok ∈ (["nope"].map normalizeToken) ∧ resolveToken tok = none ∧
      run_installation srcFS emptyTargetFS (some ["nope"]) false false [] =
        ([], some (PyExc.valueError (unknownPluginMsg tok))) :=
  run_installation_unknown_plugin_atomic srcFS emptyTargetFS ["nope"] false false []
    (by decide) (by decide) ⟨"nope", by decide, by decide⟩

/-- Counterexample to C4 as stated: two tokens resolving to the same
canonical name contribute two elements, not one — `select_plugins_from_args`
never deduplicates its result. -/
theorem select_plugins_from_args_dup_counterexample :
    select_plugins_from_args ["api", "api-development"] =
      Except.ok ["api-development", "api-development"] ∧
    (["api-development", "api-development"] : List String) ≠
      ["api-development"] := by
  exact ⟨by decide, by decide⟩

/-- C4 as amended: for every input list in which every token resolves, the
result is the alias-normalized canonical name of each token, in input order,
with one element per input token (duplicates preserved, not removed). -/
theorem select_plugins_from_args_maps_tokens (ps cs : List String)
    (h : ps.map (fun t => resolveToken (normalizeToken t)) = cs.map some) :
    select_plugins_from_args ps = Except.ok cs := by
  have hgo := selectFromArgsGo_mapped ps cs [] h
  simpa [select_plugins_from_args] using hgo

/-- Witness for the amended C4: aliases and repeats map one-to-one onto
canonical names. -/
theorem select_plugins_from_args_maps_tokens_witness :
    select_plugins_from_args ["api", "ai", " API "] =
      Except.ok ["api-development", "ai-app", "api-development"] :=
  select_plugins_from_args_maps_tokens ["api", "ai", " API "]
    ["api-development", "ai-app", "api-development"] (by decide)

/-- C8: for every alias of a canonical plugin name in the registry,
resolving the one-element list holding the alias and resolving the
one-element list holding the canonical name both yield exactly the
one-element resolved set holding the canonical name. -/
theorem alias_canonical_equivalence :
    ∀ e ∈ AVAILABLE_PLUGINS, ∀ a ∈ e.2.aliases,
      select_plugins_from_args [a] = Except.ok [e.1] ∧
      select_plugins_from_args [e.1] = Except.ok [e.1] := by
  decide

/-- Witness for C8 at the `api` alias of `api-development`. -/
theorem alias_canonical_equivalence_witness :
    select_plugins_from_args ["api"] = Except.ok ["api-development"] ∧
    select_plugins_from_args ["api-development"] = Except.ok ["api-development"] :=
  alias_canonical_equivalence
    ("api-development",
     ⟨"api-development", ["api"], "FastAPI + AWS SAM/Lambda patterns",
      "/api-development or /api"⟩)
    (by decide) "api" (by decide)

/-- Counterexample to C6 as stated: a keyboard interrupt during the
interactive plugin-selection prompt makes the source raise `SystemExit(0)`,
which no handler of `execute` catches, so the init process ends with exit
code 0, not 130.  No file has been written (the write trace is empty). -/
theorem init_interrupt_exit_code_counterexample :
    run_installation srcFS emptyTargetFS none false true [InEvent.interrupt] =
      ([], some (PyExc.systemExit 0)) ∧
    initProcessExitCode srcFS emptyTargetFS none false false [InEvent.interrupt] = 0 ∧
    initProcessExitCode srcFS emptyTargetFS none false false [InEvent.interrupt] ≠ 130 := by
  exact ⟨by decide, by decide, by decide⟩

/-- C6 as amended: a keyboard interrupt during the interactive
plugin-selection prompt is a clean cancellation with nothing written, and
the init process terminates with exit code 0 (via `SystemExit(0)`), unlike
interrupts elsewhere in the init command, which exit with 130. -/
theorem init_interrupt_at_plugin_prompt (src tgt : FS) (force : Bool)
    (rest : List InEvent)
    (henv : validate_environment src = none)
    (htgt : validate_target tgt force = none) :
    run_installation src tgt none force true (InEvent.interrupt :: rest) =
      ([], some (PyExc.systemExit 0)) ∧
    initProcessExitCode src tgt none false force (InEvent.interrupt :: rest) = 0 := by
  have h1 : run_installation src tgt none force true (InEvent.interrupt :: rest) =
      ([], some (PyExc.systemExit 0)) := by
    simp [run_installation, henv, htgt, select_plugins_interactive]
  refine ⟨h1, ?_⟩
  simp [initProcessExitCode, parsePluginsArg, h1, exceptionExitCode]

/-- Witness for the amended C6 on a forced re-install over an existing
marker file. -/
theorem init_interrupt_at_plugin_prompt_witness :
    run_installation srcFS fsNoSkills none true true [InEvent.interrupt] =
      ([], some (PyExc.systemExit 0)) ∧
    initProcessExitCode srcFS fsNoSkills none false true [InEvent.interrupt] = 0 :=
  init_interrupt_at_plugin_prompt srcFS fsNoSkills true [] (by decide) (by decide)

end SpecKit
